import Mathlib

/-!
Verification of the FoodieSpot restaurant recommendation and reservation
repository.  Python floats are modelled as rationals, Python dictionaries as
structures, and the external Supabase / HTTP collaborators as explicit
function or list parameters.  The percentage-weight scorer and the Flask
reservation endpoint are embedded from the source files
(recommendation_engine.py, app.py); the requests-based additive engine that
only its test suite references is modelled from the specification.
-/

/-- Model of Python str.lower (character-wise lowering, as on ASCII data). -/
def pyLower (s : String) : String := String.mk (s.data.map Char.toLower)

/-- Substring test on character lists: does p occur contiguously in s?
Models the Python expression p in s on strings. -/
def listContainsSub (p s : List Char) : Bool :=
  match s with
  | [] => p.isEmpty
  | _ :: t => p.isPrefixOf s || listContainsSub p t

/-- Model of the Python substring operator p in s. -/
def strContainsSub (p s : String) : Bool := listContainsSub p.data s.data

/-- Model of Python round(x, 2): round to the nearest hundredth. -/
def round2 (q : ℚ) : ℚ := ((round (q * 100) : ℤ) : ℚ) / 100

/-- A restaurant row, as selected from the restaurants table.  Missing keys
default as in the Python dict.get calls. -/
structure Restaurant where
  name : String
  cuisine : String
  city : String
  price_range : String
  rating : ℚ
  capacity : ℕ
deriving Repr, DecidableEq

/-- A user preference record.  Empty strings model both an absent key and an
empty value, exactly the cases the Python truthiness tests conflate. -/
structure Preferences where
  cuisine : String
  city : String
  price_range : String
  min_rating : Option ℚ
deriving Repr, DecidableEq

/-- Descending comparison on scored restaurants, the key used by the Python
stable sorts with key=score and reverse=True. -/
def byScoreDesc (a b : Restaurant × ℚ) : Bool := decide (b.2 ≤ a.2)

/-- Descending comparison on ratings, the key used by the Python stable sorts
with key=rating and reverse=True. -/
def byRatingDesc (a b : Restaurant) : Bool := decide (b.rating ≤ a.rating)

namespace RecommendationEngine

/-- Embeds the related_cuisines dictionary of
recommendation_engine.py _is_related_cuisine. -/
def related_cuisines (c : String) : List String :=
  if c = "italian" then ["mediterranean", "european"]
  else if c = "french" then ["european", "mediterranean"]
  else if c = "chinese" then ["asian", "japanese", "thai"]
  else if c = "japanese" then ["asian", "chinese", "thai"]
  else if c = "thai" then ["asian", "chinese", "japanese"]
  else if c = "indian" then ["asian", "thai"]
  else if c = "mexican" then ["american", "latin"]
  else if c = "american" then ["mexican", "latin"]
  else []

/-- Embeds recommendation_engine.py _is_related_cuisine. -/
def _is_related_cuisine (cuisine1 cuisine2 : String) : Bool :=
  (related_cuisines cuisine1).contains cuisine2

/-- Embeds the price_levels dictionary lookup with default 2 of
recommendation_engine.py _is_acceptable_price_range. -/
def price_levels (s : String) : ℤ :=
  if s = "$" then 1 else if s = "$$" then 2
  else if s = "$$$" then 3 else if s = "$$$$" then 4 else 2

/-- Embeds recommendation_engine.py _is_acceptable_price_range. -/
def _is_acceptable_price_range (preferred restaurant : String) : Bool :=
  (price_levels preferred - price_levels restaurant).natAbs ≤ 1

/-- Embeds the cuisine-match increment of recommendation_engine.py
_calculate_restaurant_score: 25 when either lowercased cuisine contains the
other, 15 for a related cuisine, 12.5 without a cuisine preference. -/
def cuisine_increment (r : Restaurant) (p : Preferences) : ℚ :=
  if p.cuisine ≠ "" then
    (if strContainsSub (pyLower p.cuisine) (pyLower r.cuisine)
        || strContainsSub (pyLower r.cuisine) (pyLower p.cuisine) then 25
     else if _is_related_cuisine (pyLower p.cuisine) (pyLower r.cuisine) then 15
     else 0)
  else 25/2

/-- Embeds the price-preference increment of recommendation_engine.py
_calculate_restaurant_score: 20 on an exact match, 10 within one level, 10
without a price preference. -/
def price_increment (r : Restaurant) (p : Preferences) : ℚ :=
  if p.price_range ≠ "" then
    (if p.price_range = r.price_range then 20
     else if _is_acceptable_price_range p.price_range r.price_range then 10
     else 0)
  else 10

/-- Embeds the capacity increment of recommendation_engine.py
_calculate_restaurant_score: 15, 12, 8 or 5 by capacity band. -/
def capacity_increment (r : Restaurant) : ℚ :=
  if 100 ≤ r.capacity then 15 else if 50 ≤ r.capacity then 12
  else if 20 ≤ r.capacity then 8 else 5

/-- Embeds recommendation_engine.py _calculate_restaurant_score: rating
(40 percent), cuisine match (25), price (20), capacity (15), rounded to two
decimals. -/
def _calculate_restaurant_score (r : Restaurant) (p : Preferences) : ℚ :=
  round2 ((r.rating / 5) * 40
    + cuisine_increment r p + price_increment r p + capacity_increment r)

/-- Embeds recommendation_engine.py _score_restaurants: attach a score to
every fetched restaurant and stable-sort by score, highest first. -/
def _score_restaurants (restaurants : List Restaurant) (p : Preferences) :
    List (Restaurant × ℚ) :=
  (restaurants.map (fun r => (r, _calculate_restaurant_score r p))).mergeSort byScoreDesc

/-- Embeds recommendation_engine.py _generate_message. -/
def _generate_message (p : Preferences) (count : ℕ) : String :=
  if count = 0 then "No restaurants found matching your criteria"
  else
    let parts : List String :=
      (if p.cuisine ≠ "" then [p.cuisine ++ " cuisine"] else [])
      ++ (if p.city ≠ "" then ["in " ++ p.city] else [])
      ++ (if p.price_range ≠ "" then ["in the " ++ p.price_range ++ " price range"] else [])
      ++ (match p.min_rating with
          | some q => if q ≠ 0 then ["with " ++ toString q ++ "+ star rating"] else []
          | none => [])
    if parts ≠ [] then
      "Found " ++ toString count ++ " excellent restaurants for " ++ String.intercalate ", " parts
    else
      "Here are " ++ toString count ++ " top-rated restaurants for you"

/-- Result dictionary returned by recommendation_engine.py
get_recommendations.  Recommendations carry the recommendation_score the
engine writes into each restaurant dict. -/
structure SupaResult where
  recommendations : List (Restaurant × ℚ)
  fallback_used : Bool
  total_count : ℕ
  response_time : ℚ
  message : String
deriving Repr, DecidableEq

/-- Embeds recommendation_engine.py get_recommendations.  The Supabase query
result is the fetched parameter; _get_fallback_recommendations performs its
own external queries, so its result is passed in as the fallback parameter
and returned verbatim when the primary fetch comes back empty, exactly as in
the source. -/
def get_recommendations (fetched : List Restaurant) (p : Preferences)
    (limit : ℕ) (elapsed : ℚ) (fallback : SupaResult) : SupaResult :=
  if fetched.isEmpty then fallback
  else
    let top := (_score_restaurants fetched p).take limit
    ⟨top, false, fetched.length, elapsed, _generate_message p top.length⟩

end RecommendationEngine

namespace ApiEngine

/-- Modelled from the spec: the requests-based RecommendationEngine variant
(exercised only by tests/test_recommendation_engine.py) is absent from the
sources, so its additive score is taken from section 4.1 of the spec:
rating x 2.0, proximity (1.0 on a case-insensitive exact city match, else
0.3, contributing 0 without a city preference) x 3.0, 1.5 on an exact price
tier match, 2.5 on a case-insensitive exact cuisine match, 4.0 when the
restaurant is available or availability is unknown. -/
def calculate_recommendation_score (r : Restaurant) (p : Preferences)
    (is_available : Option Bool) : ℚ :=
  r.rating * 2
  + (if p.city ≠ "" then (if pyLower r.city = pyLower p.city then 1 else 3/10) * 3 else 0)
  + (if p.price_range ≠ "" ∧ r.price_range = p.price_range then 3/2 else 0)
  + (if p.cuisine ≠ "" ∧ pyLower r.cuisine = pyLower p.cuisine then 5/2 else 0)
  + (if is_available ≠ some false then 4 else 0)

/-- Modelled from the spec: cuisine refinement (cuisine_based_matching in the
missing requests-based engine): exact case-insensitive match on the cuisine
field, result sorted by rating descending, pass-through when the preference
is empty or absent. -/
def cuisine_based_matching (restaurants : List Restaurant) (cuisine : String) :
    List Restaurant :=
  if cuisine = "" then restaurants
  else (restaurants.filter
          (fun r => pyLower r.cuisine == pyLower cuisine)).mergeSort byRatingDesc

/-- Modelled from the spec: the budget-word to price-tier map of
filter_by_price in the missing requests-based engine; a literal tier symbol
is used directly and anything else is unmapped. -/
def budget_map (b : String) : Option String :=
  if b = "low" then some "$"
  else if b = "moderate" then some "$$"
  else if b = "high" then some "$$$"
  else if b = "luxury" then some "$$$$"
  else if b = "$" ∨ b = "$$" ∨ b = "$$$" ∨ b = "$$$$" then some b
  else none

/-- Modelled from the spec: the tiers at ordinal distance one from a given
tier; the extremes have a single neighbour. -/
def adjacent_tiers (t : String) : List String :=
  if t = "$" then ["$$"]
  else if t = "$$" then ["$", "$$$"]
  else if t = "$$$" then ["$$", "$$$$"]
  else if t = "$$$$" then ["$$$"]
  else []

/-- Modelled from the spec: price filtering (price_range_filtering in the
missing requests-based engine): exact tier matches first, the adjacent tiers
when no exact match exists, and the input unchanged for an unmapped tier. -/
def price_range_filtering (restaurants : List Restaurant) (b : String) :
    List Restaurant :=
  match budget_map b with
  | none => restaurants
  | some t =>
    let exact := restaurants.filter (fun r => r.price_range == t)
    if exact.isEmpty then
      restaurants.filter (fun r => (adjacent_tiers t).contains r.price_range)
    else exact

/-- Partitioned availability result of the fallback ladder. -/
structure FallbackResult where
  restaurants : List Restaurant
  fallback_used : Bool
  available_count : ℕ
  total_count : ℕ
deriving Repr, DecidableEq

/-- Modelled from the spec: the availability fallback ladder
(availability_based_fallbacks in the missing requests-based engine).  The
per-restaurant availability collaborator is the avail parameter.  Three or
more available: the available set unmodified.  One or two: augmented with the
top two highest-rated unavailable restaurants.  None: the top five
highest-rated unavailable restaurants. -/
def availability_based_fallbacks (restaurants : List Restaurant)
    (avail : Restaurant → Bool) : FallbackResult :=
  let available := restaurants.filter avail
  let unavailable := restaurants.filter (fun r => !avail r)
  if 3 ≤ available.length then
    ⟨available, false, available.length, restaurants.length⟩
  else if 1 ≤ available.length then
    ⟨available ++ (unavailable.mergeSort byRatingDesc).take 2, true,
      available.length, restaurants.length⟩
  else
    ⟨(unavailable.mergeSort byRatingDesc).take 5, true, 0, restaurants.length⟩

/-- Result record of the spec-modelled get_recommendations. -/
structure ApiResult where
  recommendations : List (Restaurant × ℚ)
  fallback_used : Bool
  available_count : ℕ
  total_count : ℕ
  response_time : ℚ
  message : String
deriving Repr, DecidableEq

/-- Modelled from the spec: get_recommendations of the missing
requests-based engine.  The upstream candidate fetch is the fetch parameter
(an error value models the collaborator raising); a fetch error yields the
empty result with the No restaurants found message and fallback_used false.
On success the pipeline is cuisine refinement, price filter, availability
fallback ladder, scoring, stable descending sort, truncation to limit. -/
def get_recommendations (fetch : Except String (List Restaurant))
    (avail : Restaurant → Bool) (p : Preferences) (limit : ℕ) (elapsed : ℚ) :
    ApiResult :=
  match fetch with
  | Except.error _ => ⟨[], false, 0, 0, elapsed, "No restaurants found"⟩
  | Except.ok restaurants =>
    let refined := cuisine_based_matching restaurants p.cuisine
    let priced := price_range_filtering refined p.price_range
    let fb := availability_based_fallbacks priced avail
    let scored := fb.restaurants.map
      (fun r => (r, calculate_recommendation_score r p (some (avail r))))
    let ranked := scored.mergeSort byScoreDesc
    ⟨ranked.take limit, fb.fallback_used, fb.available_count, fb.total_count, elapsed,
      if fb.fallback_used then
        "All matching restaurants are fully booked, consider calling ahead"
      else
        "Found " ++ toString fb.available_count ++ " available restaurants"⟩

/-- The preference record of the concrete Bella Vista scenario in the spec. -/
def bellaPrefs : Preferences := ⟨"Italian", "New York", "$$", some 4⟩

/-- The Bella Vista candidate of the concrete scenario in the spec. -/
def bellaVista : Restaurant := ⟨"Bella Vista", "Italian", "New York", "$$", 47/10, 0⟩

end ApiEngine

namespace FlaskApp

/-- A row of the restaurants table as used by the reservation endpoint of
app.py (it selects capacity and name by id). -/
structure StoredRestaurant where
  id : String
  name : String
  capacity : ℕ
deriving Repr, DecidableEq

/-- A row of the reservations table / a validated ReservationRequest of
app.py. -/
structure Reservation where
  restaurant_id : String
  user_email : String
  user_name : String
  party_size : ℕ
  reservation_date : String
  reservation_time : String
deriving Repr, DecidableEq

/-- The database state the create_reservation endpoint reads and writes. -/
structure AppState where
  restaurants : List StoredRestaurant
  reservations : List Reservation
deriving Repr, DecidableEq

/-- HTTP status outcome of the endpoint. -/
structure ApiResponse where
  status : ℕ
  success : Bool
deriving Repr, DecidableEq

/-- Embeds the supabase lookup of app.py create_reservation: select by id,
take the first row. -/
def lookup_restaurant (st : AppState) (rid : String) : Option StoredRestaurant :=
  st.restaurants.find? (fun r => r.id == rid)

/-- The reservation-row filter of app.py create_reservation: same
restaurant, date and time. -/
def matches_slot (rid d t : String) (r : Reservation) : Bool :=
  r.restaurant_id == rid && r.reservation_date == d && r.reservation_time == t

/-- Embeds the party-size sum of app.py create_reservation over the
reservations at one slot. -/
def sum_party (rs : List Reservation) (rid d t : String) : ℕ :=
  ((rs.filter (matches_slot rid d t)).map (fun r => r.party_size)).sum

/-- Embeds the pydantic party_size validator of app.py (1 to 20); the email
and date validators concern formats outside this model. -/
def valid_request (req : Reservation) : Bool :=
  1 ≤ req.party_size && req.party_size ≤ 20

/-- Embeds app.py create_reservation: validate, look the restaurant up (404
when absent), re-check the capacity at the requested slot (409 when the
remaining capacity is smaller than the party), otherwise insert. -/
def create_reservation (st : AppState) (req : Reservation) :
    AppState × ApiResponse :=
  if !valid_request req then (st, ⟨400, false⟩)
  else
    match lookup_restaurant st req.restaurant_id with
    | none => (st, ⟨404, false⟩)
    | some rest =>
      let total := sum_party st.reservations req.restaurant_id
        req.reservation_date req.reservation_time
      if (rest.capacity : ℤ) - total < req.party_size then (st, ⟨409, false⟩)
      else (⟨st.restaurants, st.reservations ++ [req]⟩, ⟨201, true⟩)

/-- One reservation respects the capacity of its restaurant within the given
state: the summed party size at its slot stays at most the capacity. -/
def capacity_ok (st : AppState) (res : Reservation) : Bool :=
  match lookup_restaurant st res.restaurant_id with
  | some rest =>
      sum_party st.reservations res.restaurant_id res.reservation_date
        res.reservation_time ≤ rest.capacity
  | none => true

/-- The booking invariant: every stored reservation sits at a slot whose
summed party size is within the capacity of its restaurant. -/
def reservations_invariant (st : AppState) : Prop :=
  ∀ res ∈ st.reservations, capacity_ok st res = true

end FlaskApp

section Helpers

lemma byScoreDesc_trans : ∀ a b c : Restaurant × ℚ,
    byScoreDesc a b → byScoreDesc b c → byScoreDesc a c := by
  intro a b c hab hbc
  simp only [byScoreDesc, decide_eq_true_eq] at *
  exact le_trans hbc hab

lemma byScoreDesc_total : ∀ a b : Restaurant × ℚ,
    byScoreDesc a b || byScoreDesc b a := by
  intro a b
  simp only [byScoreDesc, Bool.or_eq_true, decide_eq_true_eq]
  exact le_total b.2 a.2

lemma byRatingDesc_trans : ∀ a b c : Restaurant,
    byRatingDesc a b → byRatingDesc b c → byRatingDesc a c := by
  intro a b c hab hbc
  simp only [byRatingDesc, decide_eq_true_eq] at *
  exact le_trans hbc hab

lemma byRatingDesc_total : ∀ a b : Restaurant,
    byRatingDesc a b || byRatingDesc b a := by
  intro a b
  simp only [byRatingDesc, Bool.or_eq_true, decide_eq_true_eq]
  exact le_total b.rating a.rating

lemma round2_bounds {q : ℚ} (h1 : 5 ≤ q) (h2 : q ≤ 100) :
    5 ≤ round2 q ∧ round2 q ≤ 100 := by
  unfold round2
  rw [round_eq]
  constructor
  · have h : (500 : ℤ) ≤ ⌊q * 100 + 1/2⌋ := Int.le_floor.mpr (by push_cast; linarith)
    have h3 : ((500 : ℤ) : ℚ) ≤ ((⌊q * 100 + 1/2⌋ : ℤ) : ℚ) := by exact_mod_cast h
    push_cast at h3 ⊢
    linarith
  · have h : ⌊q * 100 + 1/2⌋ < (10001 : ℤ) := Int.floor_lt.mpr (by push_cast; linarith)
    have h3 : ((⌊q * 100 + 1/2⌋ : ℤ) : ℚ) ≤ ((10000 : ℤ) : ℚ) := by
      exact_mod_cast Int.lt_add_one_iff.mp h
    push_cast at h3 ⊢
    linarith

end Helpers

/-- C9: for a rating in the closed interval from 0 to 5 and any preference
record, the percentage-weight score of recommendation_engine.py lies in the
closed interval from 5 to 100: the capacity term contributes at least 5 and
the four terms sum to at most 40 + 25 + 20 + 15. -/
theorem c9_percentage_score_bounds (r : Restaurant) (p : Preferences)
    (h0 : 0 ≤ r.rating) (h5 : r.rating ≤ 5) :
    5 ≤ RecommendationEngine._calculate_restaurant_score r p ∧
      RecommendationEngine._calculate_restaurant_score r p ≤ 100 := by
  unfold RecommendationEngine._calculate_restaurant_score
  obtain ⟨hr1, hr2⟩ : 0 ≤ (r.rating / 5) * 40 ∧ (r.rating / 5) * 40 ≤ 40 := by
    constructor <;> nlinarith
  obtain ⟨hc1, hc2⟩ : 0 ≤ RecommendationEngine.cuisine_increment r p ∧
      RecommendationEngine.cuisine_increment r p ≤ 25 := by
    unfold RecommendationEngine.cuisine_increment
    split_ifs <;> norm_num
  obtain ⟨hp1, hp2⟩ : 0 ≤ RecommendationEngine.price_increment r p ∧
      RecommendationEngine.price_increment r p ≤ 20 := by
    unfold RecommendationEngine.price_increment
    split_ifs <;> norm_num
  obtain ⟨hk1, hk2⟩ : 5 ≤ RecommendationEngine.capacity_increment r ∧
      RecommendationEngine.capacity_increment r ≤ 15 := by
    unfold RecommendationEngine.capacity_increment
    split_ifs <;> norm_num
  exact round2_bounds (by linarith) (by linarith)

/-- C9 witness: the bounds instantiated at a concrete restaurant with rating
4 and each hypothesis discharged. -/
theorem c9_percentage_score_bounds_witness :
    (0 : ℚ) ≤ (Restaurant.mk "A" "Thai" "Boston" "$" 4 10).rating ∧
      (Restaurant.mk "A" "Thai" "Boston" "$" 4 10).rating ≤ 5 ∧
      (5 ≤ RecommendationEngine._calculate_restaurant_score
          (Restaurant.mk "A" "Thai" "Boston" "$" 4 10) (Preferences.mk "" "" "" none) ∧
        RecommendationEngine._calculate_restaurant_score
          (Restaurant.mk "A" "Thai" "Boston" "$" 4 10) (Preferences.mk "" "" "" none) ≤ 100) :=
  ⟨by norm_num, by norm_num,
    c9_percentage_score_bounds (Restaurant.mk "A" "Thai" "Boston" "$" 4 10)
      (Preferences.mk "" "" "" none) (by norm_num) (by norm_num)⟩

/-- C10: the related-cuisine relation of recommendation_engine.py is not
symmetric: indian relates to thai and italian to mediterranean but not the
other way round, so swapping which cuisine is the preference changes the
score bonus. -/
theorem c10_related_cuisine_asymmetry :
    RecommendationEngine._is_related_cuisine "indian" "thai" = true ∧
    RecommendationEngine._is_related_cuisine "thai" "indian" = false ∧
    RecommendationEngine._is_related_cuisine "italian" "mediterranean" = true ∧
    RecommendationEngine._is_related_cuisine "mediterranean" "italian" = false ∧
    RecommendationEngine._calculate_restaurant_score
        (Restaurant.mk "A" "Thai" "" "" 4 0) (Preferences.mk "Indian" "" "" none) ≠
      RecommendationEngine._calculate_restaurant_score
        (Restaurant.mk "A" "Indian" "" "" 4 0) (Preferences.mk "Thai" "" "" none) := by
  refine ⟨by decide, by decide, by decide, by decide, ?_⟩
  have e1 : RecommendationEngine._calculate_restaurant_score
      (Restaurant.mk "A" "Thai" "" "" 4 0) (Preferences.mk "Indian" "" "" none) = 62 := by
    unfold RecommendationEngine._calculate_restaurant_score
    have h1 : RecommendationEngine.cuisine_increment
        (Restaurant.mk "A" "Thai" "" "" 4 0) (Preferences.mk "Indian" "" "" none) = 15 := rfl
    have h2 : RecommendationEngine.price_increment
        (Restaurant.mk "A" "Thai" "" "" 4 0) (Preferences.mk "Indian" "" "" none) = 10 := rfl
    have h3 : RecommendationEngine.capacity_increment
        (Restaurant.mk "A" "Thai" "" "" 4 0) = 5 := rfl
    rw [h1, h2, h3]
    unfold round2
    norm_num [round_eq]
  have e2 : RecommendationEngine._calculate_restaurant_score
      (Restaurant.mk "A" "Indian" "" "" 4 0) (Preferences.mk "Thai" "" "" none) = 47 := by
    unfold RecommendationEngine._calculate_restaurant_score
    have h1 : RecommendationEngine.cuisine_increment
        (Restaurant.mk "A" "Indian" "" "" 4 0) (Preferences.mk "Thai" "" "" none) = 0 := rfl
    have h2 : RecommendationEngine.price_increment
        (Restaurant.mk "A" "Indian" "" "" 4 0) (Preferences.mk "Thai" "" "" none) = 10 := rfl
    have h3 : RecommendationEngine.capacity_increment
        (Restaurant.mk "A" "Indian" "" "" 4 0) = 5 := rfl
    rw [h1, h2, h3]
    unfold round2
    norm_num [round_eq]
  rw [e1, e2]
  norm_num

/-- C4: on a non-empty fetch with no cuisine, city or price filter, the
recommendations of recommendation_engine.py get_recommendations are the
score-sorted fetched restaurants truncated to the limit: sorted by
non-increasing score, at most limit entries, and any two equally scored
entries in fetch order stay in that order in the stable sort. -/
theorem c4_recommendations_sorted_stable_limited (fetched : List Restaurant)
    (p : Preferences) (limit : ℕ) (elapsed : ℚ)
    (fallback : RecommendationEngine.SupaResult)
    (hne : fetched ≠ []) (hcu : p.cuisine = "") (hci : p.city = "")
    (hpr : p.price_range = "") :
    (RecommendationEngine.get_recommendations fetched p limit elapsed
        fallback).recommendations =
      (RecommendationEngine._score_restaurants fetched p).take limit ∧
    (RecommendationEngine.get_recommendations fetched p limit elapsed
        fallback).recommendations.Pairwise (fun a b => b.2 ≤ a.2) ∧
    (RecommendationEngine.get_recommendations fetched p limit elapsed
        fallback).recommendations.length ≤ limit ∧
    (∀ a b : Restaurant × ℚ, a.2 = b.2 →
      List.Sublist [a, b]
        (fetched.map (fun r => (r, RecommendationEngine._calculate_restaurant_score r p))) →
      List.Sublist [a, b] (RecommendationEngine._score_restaurants fetched p)) := by
  have hnb : fetched.isEmpty = false := by
    cases fetched with
    | nil => exact absurd rfl hne
    | cons a t => rfl
  have hmain : RecommendationEngine.get_recommendations fetched p limit elapsed
      fallback =
      ⟨(RecommendationEngine._score_restaurants fetched p).take limit, false,
        fetched.length, elapsed,
        RecommendationEngine._generate_message p
          ((RecommendationEngine._score_restaurants fetched p).take limit).length⟩ := by
    unfold RecommendationEngine.get_recommendations
    rw [hnb]
    rfl
  refine ⟨by rw [hmain], ?_, ?_, ?_⟩
  · rw [hmain]
    have hs := List.sorted_mergeSort byScoreDesc_trans byScoreDesc_total
      (fetched.map (fun r => (r, RecommendationEngine._calculate_restaurant_score r p)))
    have hp : (RecommendationEngine._score_restaurants fetched p).Pairwise
        (fun a b => byScoreDesc a b = true) := by
      unfold RecommendationEngine._score_restaurants
      exact hs
    have ht : ((RecommendationEngine._score_restaurants fetched p).take limit).Pairwise
        (fun a b => byScoreDesc a b = true) :=
      hp.sublist (List.take_sublist _ _)
    exact ht.imp (fun hab => by simpa [byScoreDesc, decide_eq_true_eq] using hab)
  · rw [hmain]
    exact List.length_take_le _ _
  · intro a b hab hsub
    unfold RecommendationEngine._score_restaurants
    exact List.pair_sublist_mergeSort byScoreDesc_trans byScoreDesc_total
      (by simp only [byScoreDesc, decide_eq_true_eq]; exact hab.ge) hsub

/-- C4 witness: the statement instantiated at a concrete one-element fetch
with every hypothesis discharged. -/
theorem c4_recommendations_sorted_stable_limited_witness :
    ([Restaurant.mk "A" "" "" "" 4 0] ≠ ([] : List Restaurant)) ∧
    (RecommendationEngine.get_recommendations [Restaurant.mk "A" "" "" "" 4 0]
        (Preferences.mk "" "" "" none) 1 0
        (RecommendationEngine.SupaResult.mk [] false 0 0 "")).recommendations.length ≤ 1 :=
  ⟨by simp,
    (c4_recommendations_sorted_stable_limited [Restaurant.mk "A" "" "" "" 4 0]
      (Preferences.mk "" "" "" none) 1 0
      (RecommendationEngine.SupaResult.mk [] false 0 0 "")
      (by simp) rfl rfl rfl).2.2.1⟩

/-- C5: the cuisine refinement with preference Italian keeps exactly the
restaurants whose lowercased cuisine is italian, sorted by rating
descending, and an empty preference passes the list through unchanged. -/
theorem c5_cuisine_matching (R : List Restaurant) :
    ApiEngine.cuisine_based_matching R "" = R ∧
    (ApiEngine.cuisine_based_matching R "Italian").Perm
      (R.filter (fun r => pyLower r.cuisine == "italian")) ∧
    (∀ r, r ∈ ApiEngine.cuisine_based_matching R "Italian" ↔
      (r ∈ R ∧ pyLower r.cuisine = "italian")) ∧
    (ApiEngine.cuisine_based_matching R "Italian").Pairwise
      (fun a b => b.rating ≤ a.rating) := by
  have hpl : pyLower "Italian" = "italian" := rfl
  refine ⟨?_, ?_, ?_, ?_⟩
  · unfold ApiEngine.cuisine_based_matching
    rw [if_pos rfl]
  · unfold ApiEngine.cuisine_based_matching
    rw [if_neg (by decide)]
    rw [hpl]
    exact List.mergeSort_perm _ _
  · intro r
    unfold ApiEngine.cuisine_based_matching
    rw [if_neg (by decide), hpl]
    simp [List.mem_mergeSort, List.mem_filter, beq_iff_eq]
  · unfold ApiEngine.cuisine_based_matching
    rw [if_neg (by decide)]
    have hs := List.sorted_mergeSort byRatingDesc_trans byRatingDesc_total
      (R.filter (fun r => pyLower r.cuisine == pyLower "Italian"))
    exact hs.imp (fun hab => by simpa [byRatingDesc, decide_eq_true_eq] using hab)

/-- C6: the price filter maps the budget words low, moderate, high and
luxury to the four tiers, uses a literal tier directly, prefers exact-tier
matches, falls back to the tiers one ordinal step away only when no exact
match exists (a single neighbour at the extremes), and leaves the input
unchanged for an unmapped tier. -/
theorem c6_price_filtering (R : List Restaurant) (b t : String) :
    (ApiEngine.budget_map "low" = some "$" ∧
     ApiEngine.budget_map "moderate" = some "$$" ∧
     ApiEngine.budget_map "high" = some "$$$" ∧
     ApiEngine.budget_map "luxury" = some "$$$$" ∧
     ApiEngine.budget_map "$" = some "$" ∧
     ApiEngine.budget_map "$$" = some "$$" ∧
     ApiEngine.budget_map "$$$" = some "$$$" ∧
     ApiEngine.budget_map "$$$$" = some "$$$$") ∧
    (ApiEngine.adjacent_tiers "$" = ["$$"] ∧
     ApiEngine.adjacent_tiers "$$" = ["$", "$$$"] ∧
     ApiEngine.adjacent_tiers "$$$" = ["$$", "$$$$"] ∧
     ApiEngine.adjacent_tiers "$$$$" = ["$$$"]) ∧
    (ApiEngine.budget_map b = some t →
      R.filter (fun r => r.price_range == t) ≠ [] →
      ApiEngine.price_range_filtering R b =
        R.filter (fun r => r.price_range == t)) ∧
    (ApiEngine.budget_map b = some t →
      R.filter (fun r => r.price_range == t) = [] →
      ApiEngine.price_range_filtering R b =
        R.filter (fun r => (ApiEngine.adjacent_tiers t).contains r.price_range)) ∧
    (ApiEngine.budget_map b = none → ApiEngine.price_range_filtering R b = R) := by
  refine ⟨by decide, by decide, ?_, ?_, ?_⟩
  · intro h1 h2
    unfold ApiEngine.price_range_filtering
    rw [h1]
    have he : (R.filter (fun r => r.price_range == t)).isEmpty = false :=
      List.isEmpty_eq_false.mpr h2
    simp only [he, Bool.false_eq_true, if_false]
  · intro h1 h2
    unfold ApiEngine.price_range_filtering
    rw [h1]
    have he : (R.filter (fun r => r.price_range == t)).isEmpty = true :=
      List.isEmpty_iff.mpr h2
    simp only [he, if_true]
  · intro h1
    unfold ApiEngine.price_range_filtering
    rw [h1]

/-- C6 witness: the adjacent-tier fallback instantiated at the concrete
scenario of the spec: the luxury budget with no four-dollar restaurant but a
three-dollar one falls back to the adjacent tier. -/
theorem c6_price_filtering_witness :
    ApiEngine.budget_map "luxury" = some "$$$$" ∧
    [Restaurant.mk "C" "" "" "$$$" 5 0].filter
      (fun r => r.price_range == "$$$$") = [] ∧
    ApiEngine.price_range_filtering [Restaurant.mk "C" "" "" "$$$" 5 0] "luxury" =
      [Restaurant.mk "C" "" "" "$$$" 5 0].filter
        (fun r => (ApiEngine.adjacent_tiers "$$$$").contains r.price_range) :=
  ⟨rfl, by decide,
    (c6_price_filtering [Restaurant.mk "C" "" "" "$$$" 5 0] "luxury"
      "$$$$").2.2.2.1 rfl (by decide)⟩

/-- C2: the availability fallback ladder: three or more available
candidates give exactly the available set with no fallback; one or two give
the available set augmented with the two highest-rated unavailable
restaurants and the fallback flag; none gives the five highest-rated
unavailable restaurants (at most five, all unavailable members of the input,
rating-sorted) and the fallback flag. -/
theorem c2_availability_fallback_ladder (R : List Restaurant)
    (avail : Restaurant → Bool) :
    (3 ≤ (R.filter avail).length →
      (ApiEngine.availability_based_fallbacks R avail).restaurants = R.filter avail ∧
      (ApiEngine.availability_based_fallbacks R avail).fallback_used = false) ∧
    (1 ≤ (R.filter avail).length → (R.filter avail).length ≤ 2 →
      (ApiEngine.availability_based_fallbacks R avail).restaurants =
        R.filter avail ++
          ((R.filter (fun r => !avail r)).mergeSort byRatingDesc).take 2 ∧
      (ApiEngine.availability_based_fallbacks R avail).fallback_used = true) ∧
    ((R.filter avail).length = 0 →
      (ApiEngine.availability_based_fallbacks R avail).restaurants =
        ((R.filter (fun r => !avail r)).mergeSort byRatingDesc).take 5 ∧
      (ApiEngine.availability_based_fallbacks R avail).fallback_used = true ∧
      (ApiEngine.availability_based_fallbacks R avail).restaurants.length ≤ 5 ∧
      (∀ r ∈ (ApiEngine.availability_based_fallbacks R avail).restaurants,
        r ∈ R ∧ avail r = false) ∧
      (ApiEngine.availability_based_fallbacks R avail).restaurants.Pairwise
        (fun a b => b.rating ≤ a.rating)) := by
  refine ⟨?_, ?_, ?_⟩
  · intro h3
    unfold ApiEngine.availability_based_fallbacks
    rw [if_pos h3]
    exact ⟨rfl, rfl⟩
  · intro h1 h2
    unfold ApiEngine.availability_based_fallbacks
    rw [if_neg (by omega), if_pos h1]
    exact ⟨rfl, rfl⟩
  · intro h0
    unfold ApiEngine.availability_based_fallbacks
    rw [if_neg (by omega), if_neg (by omega)]
    refine ⟨rfl, rfl, List.length_take_le _ _, ?_, ?_⟩
    · intro r hr
      have hr2 : r ∈ (R.filter (fun r => !avail r)).mergeSort byRatingDesc :=
        List.mem_of_mem_take hr
      have hr3 : r ∈ R.filter (fun r => !avail r) := List.mem_mergeSort.mp hr2
      have hr4 := List.mem_filter.mp hr3
      refine ⟨hr4.1, ?_⟩
      have := hr4.2
      simp only [Bool.not_eq_true'] at this
      exact this
    · have hs := List.sorted_mergeSort byRatingDesc_trans byRatingDesc_total
        (R.filter (fun r => !avail r))
      have ht := hs.sublist (List.take_sublist 5 _)
      exact ht.imp (fun hab => by simpa [byRatingDesc, decide_eq_true_eq] using hab)

/-- C2 witness: the ladder instantiated at two concrete five-restaurant
stores, one with no availability and one with exactly four available. -/
theorem c2_availability_fallback_ladder_witness :
    (([Restaurant.mk "A" "" "" "" 5 0, Restaurant.mk "B" "" "" "" 4 0,
       Restaurant.mk "C" "" "" "" 3 0, Restaurant.mk "D" "" "" "" 2 0,
       Restaurant.mk "E" "" "" "" 1 0].filter (fun _ => false)).length = 0) ∧
    (ApiEngine.availability_based_fallbacks
      [Restaurant.mk "A" "" "" "" 5 0, Restaurant.mk "B" "" "" "" 4 0,
       Restaurant.mk "C" "" "" "" 3 0, Restaurant.mk "D" "" "" "" 2 0,
       Restaurant.mk "E" "" "" "" 1 0] (fun _ => false)).fallback_used = true ∧
    (ApiEngine.availability_based_fallbacks
      [Restaurant.mk "A" "" "" "" 5 0, Restaurant.mk "B" "" "" "" 4 0,
       Restaurant.mk "C" "" "" "" 3 0, Restaurant.mk "D" "" "" "" 2 0,
       Restaurant.mk "E" "" "" "" 1 0] (fun _ => false)).restaurants.length ≤ 5 ∧
    (3 ≤ ([Restaurant.mk "A" "" "" "" 5 0, Restaurant.mk "B" "" "" "" 4 0,
       Restaurant.mk "C" "" "" "" 3 0, Restaurant.mk "D" "" "" "" 2 0,
       Restaurant.mk "E" "" "" "" 1 0].filter
        (fun r => r.name != "E")).length) ∧
    (ApiEngine.availability_based_fallbacks
      [Restaurant.mk "A" "" "" "" 5 0, Restaurant.mk "B" "" "" "" 4 0,
       Restaurant.mk "C" "" "" "" 3 0, Restaurant.mk "D" "" "" "" 2 0,
       Restaurant.mk "E" "" "" "" 1 0] (fun r => r.name != "E")).restaurants =
      [Restaurant.mk "A" "" "" "" 5 0, Restaurant.mk "B" "" "" "" 4 0,
       Restaurant.mk "C" "" "" "" 3 0, Restaurant.mk "D" "" "" "" 2 0,
       Restaurant.mk "E" "" "" "" 1 0].filter (fun r => r.name != "E") ∧
    (ApiEngine.availability_based_fallbacks
      [Restaurant.mk "A" "" "" "" 5 0, Restaurant.mk "B" "" "" "" 4 0,
       Restaurant.mk "C" "" "" "" 3 0, Restaurant.mk "D" "" "" "" 2 0,
       Restaurant.mk "E" "" "" "" 1 0] (fun r => r.name != "E")).fallback_used = false := by
  have w1 := (c2_availability_fallback_ladder
    [Restaurant.mk "A" "" "" "" 5 0, Restaurant.mk "B" "" "" "" 4 0,
     Restaurant.mk "C" "" "" "" 3 0, Restaurant.mk "D" "" "" "" 2 0,
     Restaurant.mk "E" "" "" "" 1 0] (fun _ => false)).2.2 (by decide)
  have w2 := (c2_availability_fallback_ladder
    [Restaurant.mk "A" "" "" "" 5 0, Restaurant.mk "B" "" "" "" 4 0,
     Restaurant.mk "C" "" "" "" 3 0, Restaurant.mk "D" "" "" "" 2 0,
     Restaurant.mk "E" "" "" "" 1 0] (fun r => r.name != "E")).1 (by decide)
  exact ⟨by decide, w1.2.1, w1.2.2.1, by decide, w2.1, w2.2⟩

/-- C3: a raising upstream fetch makes get_recommendations return the empty
recommendation list with fallback_used false, a message containing the words
No restaurants found, and a non-negative response time, instead of raising. -/
theorem c3_fetch_error_empty_result (e : String) (avail : Restaurant → Bool)
    (p : Preferences) (limit : ℕ) (elapsed : ℚ) (h : 0 ≤ elapsed) :
    (ApiEngine.get_recommendations (Except.error e) avail p limit
        elapsed).recommendations = [] ∧
    (ApiEngine.get_recommendations (Except.error e) avail p limit
        elapsed).fallback_used = false ∧
    strContainsSub "No restaurants found"
      (ApiEngine.get_recommendations (Except.error e) avail p limit
        elapsed).message = true ∧
    0 ≤ (ApiEngine.get_recommendations (Except.error e) avail p limit
        elapsed).response_time :=
  ⟨rfl, rfl, rfl, h⟩

/-- C3 witness: the error path instantiated at a concrete failing fetch. -/
theorem c3_fetch_error_empty_result_witness :
    (0 : ℚ) ≤ 0 ∧
    ((ApiEngine.get_recommendations (Except.error "boom") (fun _ => true)
        (Preferences.mk "Italian" "" "" none) 10 0).recommendations = [] ∧
      (ApiEngine.get_recommendations (Except.error "boom") (fun _ => true)
        (Preferences.mk "Italian" "" "" none) 10 0).fallback_used = false ∧
      strContainsSub "No restaurants found"
        (ApiEngine.get_recommendations (Except.error "boom") (fun _ => true)
          (Preferences.mk "Italian" "" "" none) 10 0).message = true ∧
      0 ≤ (ApiEngine.get_recommendations (Except.error "boom") (fun _ => true)
          (Preferences.mk "Italian" "" "" none) 10 0).response_time) :=
  ⟨le_refl 0,
    c3_fetch_error_empty_result "boom" (fun _ => true)
      (Preferences.mk "Italian" "" "" none) 10 0 (le_refl 0)⟩

/-- C7: get_recommendations is deterministic: over the same fetch result,
availability collaborator, preferences and limit, two runs agree on the
recommendation ordering, the fallback flag and the count fields, whatever
the elapsed wall-clock times of the two runs were. -/
theorem c7_deterministic (fetch : Except String (List Restaurant))
    (avail : Restaurant → Bool) (p : Preferences) (limit : ℕ) (e1 e2 : ℚ) :
    (ApiEngine.get_recommendations fetch avail p limit e1).recommendations =
      (ApiEngine.get_recommendations fetch avail p limit e2).recommendations ∧
    (ApiEngine.get_recommendations fetch avail p limit e1).fallback_used =
      (ApiEngine.get_recommendations fetch avail p limit e2).fallback_used ∧
    (ApiEngine.get_recommendations fetch avail p limit e1).available_count =
      (ApiEngine.get_recommendations fetch avail p limit e2).available_count ∧
    (ApiEngine.get_recommendations fetch avail p limit e1).total_count =
      (ApiEngine.get_recommendations fetch avail p limit e2).total_count := by
  cases fetch with
  | error e => exact ⟨rfl, rfl, rfl, rfl⟩
  | ok restaurants => exact ⟨rfl, rfl, rfl, rfl⟩

lemma head_mergeSort_max (l : List (Restaurant × ℚ)) (x : Restaurant × ℚ)
    (hx : x ∈ l) (hmax : ∀ y ∈ l, y = x ∨ y.2 < x.2) :
    (l.mergeSort byScoreDesc).head? = some x := by
  have hperm := List.mergeSort_perm l byScoreDesc
  have hsorted := List.sorted_mergeSort byScoreDesc_trans byScoreDesc_total l
  cases hms : l.mergeSort byScoreDesc with
  | nil =>
    have : x ∈ l.mergeSort byScoreDesc := List.mem_mergeSort.mpr hx
    rw [hms] at this
    cases this
  | cons a t =>
    have hal : a ∈ l := hperm.subset (hms ▸ List.mem_cons_self a t)
    rcases hmax a hal with rfl | hlt
    · rfl
    · exfalso
      have hxm : x ∈ a :: t := hms ▸ List.mem_mergeSort.mpr hx
      rcases List.mem_cons.mp hxm with rfl | hxt
      · exact absurd hlt (lt_irrefl _)
      · rw [hms] at hsorted
        have h2 := (List.pairwise_cons.mp hsorted).1 x hxt
        simp only [byScoreDesc, decide_eq_true_eq] at h2
        exact absurd (lt_of_le_of_lt h2 hlt) (lt_irrefl _)

/-- C1 counterexample: under the additive weighted scheme the Bella Vista
candidate of the concrete spec scenario scores 20.4, not the 20.9 the claim
asserts: 4.7 x 2.0 + 1.0 x 3.0 + 1.5 + 2.5 + 4.0 = 20.4. -/
theorem c1_bella_vista_counterexample :
    ApiEngine.calculate_recommendation_score ApiEngine.bellaVista
      ApiEngine.bellaPrefs (some true) ≠ 209/10 := by
  have e : ApiEngine.calculate_recommendation_score ApiEngine.bellaVista
      ApiEngine.bellaPrefs (some true) = 102/5 := by
    unfold ApiEngine.calculate_recommendation_score ApiEngine.bellaVista
      ApiEngine.bellaPrefs
    norm_num [show pyLower "New York" = "new york" from rfl,
      show pyLower "Italian" = "italian" from rfl,
      show ("New York" = "") = False from eq_false (by decide),
      show ("$$" = "") = False from eq_false (by decide),
      show ("Italian" = "") = False from eq_false (by decide)]
  rw [e]
  norm_num

/-- C1 amended: the additive weighted score of the Bella Vista candidate is
4.7 x 2.0 + 1.0 x 3.0 + 1.5 + 2.5 + 4.0 = 20.4, and against any candidate
set in which every other scored entry is strictly lower scoring the stable
descending sort ranks Bella Vista first. -/
theorem c1_bella_vista_ranks_first :
    ApiEngine.calculate_recommendation_score ApiEngine.bellaVista
      ApiEngine.bellaPrefs (some true) = 102/5 ∧
    ∀ (l : List (Restaurant × ℚ)),
      (ApiEngine.bellaVista, (102/5 : ℚ)) ∈ l →
      (∀ x ∈ l, x = (ApiEngine.bellaVista, (102/5 : ℚ)) ∨ x.2 < 102/5) →
      (l.mergeSort byScoreDesc).head? = some (ApiEngine.bellaVista, (102/5 : ℚ)) := by
  constructor
  · unfold ApiEngine.calculate_recommendation_score ApiEngine.bellaVista
      ApiEngine.bellaPrefs
    norm_num [show pyLower "New York" = "new york" from rfl,
      show pyLower "Italian" = "italian" from rfl,
      show ("New York" = "") = False from eq_false (by decide),
      show ("$$" = "") = False from eq_false (by decide),
      show ("Italian" = "") = False from eq_false (by decide)]
  · intro l hmem hmax
    exact head_mergeSort_max l _ hmem hmax

/-- C1 witness: Bella Vista ranked first against four concrete lower-scoring
alternatives. -/
theorem c1_bella_vista_ranks_first_witness :
    ((ApiEngine.bellaVista, (102/5 : ℚ)) ∈
      [(ApiEngine.bellaVista, (102/5 : ℚ)),
       (Restaurant.mk "B" "Italian" "Boston" "$" 3 0, (10 : ℚ)),
       (Restaurant.mk "C" "Italian" "Boston" "$" 3 0, (9 : ℚ)),
       (Restaurant.mk "D" "Italian" "Boston" "$" 3 0, (8 : ℚ)),
       (Restaurant.mk "E" "Italian" "Boston" "$" 3 0, (7 : ℚ))]) ∧
    ([(ApiEngine.bellaVista, (102/5 : ℚ)),
      (Restaurant.mk "B" "Italian" "Boston" "$" 3 0, (10 : ℚ)),
      (Restaurant.mk "C" "Italian" "Boston" "$" 3 0, (9 : ℚ)),
      (Restaurant.mk "D" "Italian" "Boston" "$" 3 0, (8 : ℚ)),
      (Restaurant.mk "E" "Italian" "Boston" "$" 3 0, (7 : ℚ))].mergeSort
        byScoreDesc).head? = some (ApiEngine.bellaVista, (102/5 : ℚ)) := by
  have hmem : (ApiEngine.bellaVista, (102/5 : ℚ)) ∈
      [(ApiEngine.bellaVista, (102/5 : ℚ)),
       (Restaurant.mk "B" "Italian" "Boston" "$" 3 0, (10 : ℚ)),
       (Restaurant.mk "C" "Italian" "Boston" "$" 3 0, (9 : ℚ)),
       (Restaurant.mk "D" "Italian" "Boston" "$" 3 0, (8 : ℚ)),
       (Restaurant.mk "E" "Italian" "Boston" "$" 3 0, (7 : ℚ))] :=
    List.mem_cons_self _ _
  have hmax : ∀ x ∈
      [(ApiEngine.bellaVista, (102/5 : ℚ)),
       (Restaurant.mk "B" "Italian" "Boston" "$" 3 0, (10 : ℚ)),
       (Restaurant.mk "C" "Italian" "Boston" "$" 3 0, (9 : ℚ)),
       (Restaurant.mk "D" "Italian" "Boston" "$" 3 0, (8 : ℚ)),
       (Restaurant.mk "E" "Italian" "Boston" "$" 3 0, (7 : ℚ))],
      x = (ApiEngine.bellaVista, (102/5 : ℚ)) ∨ x.2 < 102/5 := by
    intro x hx
    simp only [List.mem_cons, List.not_mem_nil, or_false] at hx
    rcases hx with rfl | rfl | rfl | rfl | rfl
    · exact Or.inl rfl
    · exact Or.inr (by norm_num)
    · exact Or.inr (by norm_num)
    · exact Or.inr (by norm_num)
    · exact Or.inr (by norm_num)
  exact ⟨hmem, c1_bella_vista_ranks_first.2 _ hmem hmax⟩

lemma sum_party_append (rs : List FlaskApp.Reservation) (r : FlaskApp.Reservation)
    (rid d t : String) :
    FlaskApp.sum_party (rs ++ [r]) rid d t =
      FlaskApp.sum_party rs rid d t +
        (if FlaskApp.matches_slot rid d t r then r.party_size else 0) := by
  unfold FlaskApp.sum_party
  rw [List.filter_append]
  by_cases hm : FlaskApp.matches_slot rid d t r = true
  · simp [hm]
  · simp [hm]

lemma capacity_ok_after_insert (st : FlaskApp.AppState) (req : FlaskApp.Reservation)
    (rest : FlaskApp.StoredRestaurant)
    (hlook : FlaskApp.lookup_restaurant st req.restaurant_id = some rest)
    (hcap : FlaskApp.sum_party st.reservations req.restaurant_id
        req.reservation_date req.reservation_time + req.party_size ≤ rest.capacity)
    (hinv : FlaskApp.reservations_invariant st) :
    FlaskApp.reservations_invariant
      (FlaskApp.AppState.mk st.restaurants (st.reservations ++ [req])) := by
  intro res hres
  unfold FlaskApp.capacity_ok
  have hl : FlaskApp.lookup_restaurant
      (FlaskApp.AppState.mk st.restaurants (st.reservations ++ [req]))
      res.restaurant_id = FlaskApp.lookup_restaurant st res.restaurant_id := rfl
  rw [hl]
  cases hcase : FlaskApp.lookup_restaurant st res.restaurant_id with
  | none => rfl
  | some rest2 =>
    simp only []
    rw [decide_eq_true_iff]
    show FlaskApp.sum_party (st.reservations ++ [req]) res.restaurant_id
      res.reservation_date res.reservation_time ≤ rest2.capacity
    rw [sum_party_append]
    by_cases hm : FlaskApp.matches_slot res.restaurant_id res.reservation_date
        res.reservation_time req = true
    · obtain ⟨h1, h2, h3⟩ : req.restaurant_id = res.restaurant_id ∧
          req.reservation_date = res.reservation_date ∧
          req.reservation_time = res.reservation_time := by
        have := hm
        unfold FlaskApp.matches_slot at this
        simp only [Bool.and_eq_true, beq_iff_eq] at this
        exact ⟨this.1.1, this.1.2, this.2⟩
      rw [hm, if_pos rfl]
      rw [← h1, ← h2, ← h3]
      have hrr : rest2 = rest := by
        rw [← h1] at hcase
        rw [hcase] at hlook
        exact Option.some.inj hlook
      rw [hrr]
      exact hcap
    · have hm2 : FlaskApp.matches_slot res.restaurant_id res.reservation_date
          res.reservation_time req = false := by
        revert hm
        cases FlaskApp.matches_slot res.restaurant_id res.reservation_date
          res.reservation_time req <;> simp
      rw [hm2]
      simp only [Bool.false_eq_true, if_false, Nat.add_zero]
      have hres_old : res ∈ st.reservations := by
        rcases List.mem_append.mp hres with h | h
        · exact h
        · exfalso
          apply hm
          have hre : res = req := by simpa using h
          subst hre
          unfold FlaskApp.matches_slot
          simp
      have hok := hinv res hres_old
      unfold FlaskApp.capacity_ok at hok
      rw [hcase] at hok
      exact of_decide_eq_true hok

/-- C8: the create_reservation endpoint of app.py inserts a reservation only
when the summed party size already booked at the same restaurant, date and
time slot plus the requested party still fits the capacity; an over-capacity
valid request for an existing restaurant gets a 409 with the store
unchanged; consequently the per-slot capacity invariant is preserved by
every create_reservation step from any state satisfying it. -/
theorem c8_reservation_capacity_invariant (st : FlaskApp.AppState)
    (req : FlaskApp.Reservation)
    (hinv : FlaskApp.reservations_invariant st) :
    FlaskApp.reservations_invariant (FlaskApp.create_reservation st req).1 ∧
    ((FlaskApp.create_reservation st req).2.status = 201 →
      ∃ rest, FlaskApp.lookup_restaurant st req.restaurant_id = some rest ∧
        FlaskApp.sum_party st.reservations req.restaurant_id req.reservation_date
          req.reservation_time + req.party_size ≤ rest.capacity ∧
        (FlaskApp.create_reservation st req).1.reservations =
          st.reservations ++ [req]) ∧
    (∀ rest, FlaskApp.valid_request req = true →
      FlaskApp.lookup_restaurant st req.restaurant_id = some rest →
      rest.capacity <
        FlaskApp.sum_party st.reservations req.restaurant_id req.reservation_date
          req.reservation_time + req.party_size →
      (FlaskApp.create_reservation st req).2.status = 409 ∧
      (FlaskApp.create_reservation st req).1 = st) := by
  by_cases hv : FlaskApp.valid_request req = true
  · cases hcase : FlaskApp.lookup_restaurant st req.restaurant_id with
    | none =>
      have hred : FlaskApp.create_reservation st req =
          (st, FlaskApp.ApiResponse.mk 404 false) := by
        unfold FlaskApp.create_reservation
        rw [hv]
        simp only [Bool.not_true, Bool.false_eq_true, if_false]
        simp only [hcase]
      refine ⟨by rw [hred]; exact hinv, ?_, ?_⟩
      · rw [hred]
        intro h
        simp at h
      · intro rest _ hl2 _
        exact Option.noConfusion hl2
    | some rest =>
      by_cases hover : (rest.capacity : ℤ) -
          FlaskApp.sum_party st.reservations req.restaurant_id
            req.reservation_date req.reservation_time < req.party_size
      · have hred : FlaskApp.create_reservation st req =
            (st, FlaskApp.ApiResponse.mk 409 false) := by
          unfold FlaskApp.create_reservation
          rw [hv]
          simp only [Bool.not_true, Bool.false_eq_true, if_false]
          simp only [hcase]
          rw [if_pos hover]
        refine ⟨by rw [hred]; exact hinv, ?_, ?_⟩
        · rw [hred]
          intro h
          simp at h
        · intro rest2 _ _ _
          rw [hred]
          exact ⟨rfl, rfl⟩
      · have hcap : FlaskApp.sum_party st.reservations req.restaurant_id
            req.reservation_date req.reservation_time + req.party_size ≤
              rest.capacity := by omega
        have hred : FlaskApp.create_reservation st req =
            (FlaskApp.AppState.mk st.restaurants (st.reservations ++ [req]),
              FlaskApp.ApiResponse.mk 201 true) := by
          unfold FlaskApp.create_reservation
          rw [hv]
          simp only [Bool.not_true, Bool.false_eq_true, if_false]
          simp only [hcase]
          rw [if_neg hover]
        refine ⟨?_, ?_, ?_⟩
        · rw [hred]
          exact capacity_ok_after_insert st req rest hcase hcap hinv
        · intro _
          exact ⟨rest, rfl, hcap, by rw [hred]⟩
        · intro rest2 _ hl2 hcap2
          obtain rfl : rest = rest2 := Option.some.inj hl2
          exact absurd hcap2 (by omega)
  · have hv2 : FlaskApp.valid_request req = false := by
      revert hv
      cases FlaskApp.valid_request req <;> simp
    have hred : FlaskApp.create_reservation st req =
        (st, FlaskApp.ApiResponse.mk 400 false) := by
      unfold FlaskApp.create_reservation
      rw [hv2]
      simp only [Bool.not_false, if_true]
    refine ⟨by rw [hred]; exact hinv, ?_, ?_⟩
    · rw [hred]
      intro h
      simp at h
    · intro rest hvr _ _
      rw [hv2] at hvr
      exact absurd hvr (by decide)

/-- C8 witness: the invariant preservation instantiated at a concrete store
with one ten-seat restaurant, an empty reservation table and one four-person
request. -/
theorem c8_reservation_capacity_invariant_witness :
    FlaskApp.reservations_invariant
      (FlaskApp.AppState.mk [FlaskApp.StoredRestaurant.mk "r1" "Bella" 10] []) ∧
    FlaskApp.reservations_invariant
      (FlaskApp.create_reservation
        (FlaskApp.AppState.mk [FlaskApp.StoredRestaurant.mk "r1" "Bella" 10] [])
        (FlaskApp.Reservation.mk "r1" "ann@example.com" "Ann" 4
          "2025-06-15" "19:00")).1 :=
  ⟨by unfold FlaskApp.reservations_invariant; decide,
    (c8_reservation_capacity_invariant
      (FlaskApp.AppState.mk [FlaskApp.StoredRestaurant.mk "r1" "Bella" 10] [])
      (FlaskApp.Reservation.mk "r1" "ann@example.com" "Ann" 4 "2025-06-15" "19:00")
      (by unfold FlaskApp.reservations_invariant; decide)).1⟩
